import Mathlib

/-!
Shallow embedding of the screensaver rotation engine (src/app.js).

The engine's state lives in a single mutable `state` object plus two
stacked video elements ('playerA' / 'playerB').  We embed that state as
the structure `AppState` below, and each relevant function of app.js as
a pure Lean function (event handlers and timer callbacks become state
transformers; `Math.random()` draws become an explicit oracle argument;
times and playback rates are rationals).
-/

namespace Screensaver

/-- Orientation enumeration, mirroring the ORIENT constant of app.js. -/
inductive Orientation
  | portrait
  | landscape
  | square
deriving DecidableEq

/-- A manifest item after probing: url, optional title, probed pixel
dimensions and the orientation classified from them. -/
structure Clip where
  url : String
  title : Option String
  width : Nat
  height : Nat
  orientation : Orientation
deriving DecidableEq

/-- Fallback value used to make JS array indexing `b[i]` total in Lean;
every use below indexes within bounds, so it is never produced. -/
def dfltClip : Clip := ⟨"", none, 0, 0, Orientation.square⟩

/-- ASPECT_TOL constant of app.js (0.08). -/
def ASPECT_TOL : ℚ := 8 / 100

/-- EXIT_LEAD_S constant of app.js (1.5 seconds). -/
def EXIT_LEAD_S : ℚ := 3 / 2

/-- SLOW_INTERVAL_MS constant of app.js (120 ms deceleration tick). -/
def SLOW_INTERVAL_MS : Nat := 120

/-- MIN_SLOW_RATE constant of app.js (0.5 playback-rate floor). -/
def MIN_SLOW_RATE : ℚ := 1 / 2

/-- PAUSE_EPS constant of app.js (0.05 s remaining-time epsilon). -/
def PAUSE_EPS : ℚ := 1 / 20

/-- Embeds `inferOrientationFromAspect(w,h)` of app.js: zero / unknown
dimension gives square; otherwise the ratio w/h is compared against the
tolerance band around 1. -/
def inferOrientationFromAspect (w h : ℚ) : Orientation :=
  if w = 0 ∨ h = 0 then Orientation.square
  else
    let r := w / h
    if |r - 1| ≤ ASPECT_TOL then Orientation.square
    else if r > 1 then Orientation.landscape
    else Orientation.portrait

/-- Embeds `screenOrientation()` of app.js, as a function of the viewport
dimensions it reads: `window.innerHeight > window.innerWidth ? PORTRAIT
: LANDSCAPE`. -/
def screenOrientation (w h : ℚ) : Orientation :=
  if h > w then Orientation.portrait else Orientation.landscape

/-- Role tag of the two stacked video layers ('A' or 'B'). -/
inductive Role
  | A
  | B
deriving DecidableEq

/-- Flips a role tag. -/
def Role.other : Role → Role
  | Role.A => Role.B
  | Role.B => Role.A

/-- Transition style setting (state.transition of app.js). -/
inductive TransitionStyle
  | crossfade
  | fade
  | cut
deriving DecidableEq

/-- Observable state of one video element, restricted to the fields the
engine reads or writes: source, duration, position, rate, paused flag,
CSS opacity, and whether the wireVideoEvents closure of that element
currently has a live `slowTimer` interval. -/
structure VideoSurface where
  src : Option String
  duration : ℚ
  currentTime : ℚ
  playbackRate : ℚ
  paused : Bool
  opacity : ℚ
  slowTimerOn : Bool
deriving DecidableEq

/-- The `state.buckets` record of app.js: one clip list per orientation. -/
structure Buckets where
  portrait : List Clip
  landscape : List Clip
  square : List Clip
deriving DecidableEq

/-- Bucket lookup `state.buckets[orient]`. -/
def Buckets.get (bk : Buckets) : Orientation → List Clip
  | Orientation.portrait => bk.portrait
  | Orientation.landscape => bk.landscape
  | Orientation.square => bk.square

/-- Appends a clip to the bucket matching its own orientation, as the
manifest-ingestion loop `(state.buckets[it.orientation] ||= []).push(it)`
does for one item. -/
def Buckets.push (bk : Buckets) (c : Clip) : Buckets :=
  match c.orientation with
  | Orientation.portrait => { bk with portrait := bk.portrait ++ [c] }
  | Orientation.landscape => { bk with landscape := bk.landscape ++ [c] }
  | Orientation.square => { bk with square := bk.square ++ [c] }

/-- The `state.lastPick` record of app.js. -/
structure LastPick where
  portrait : Option Clip
  landscape : Option Clip
  square : Option Clip
deriving DecidableEq

/-- Lookup `state.lastPick[orient]`. -/
def LastPick.get (lp : LastPick) : Orientation → Option Clip
  | Orientation.portrait => lp.portrait
  | Orientation.landscape => lp.landscape
  | Orientation.square => lp.square

/-- Assignment `state.lastPick[orient] = pick`. -/
def LastPick.set (lp : LastPick) : Orientation → Option Clip → LastPick
  | Orientation.portrait, c => { lp with portrait := c }
  | Orientation.landscape, c => { lp with landscape := c }
  | Orientation.square, c => { lp with square := c }

/-- The global mutable `state` object of app.js together with the two
video layers. -/
structure AppState where
  items : List Clip
  buckets : Buckets
  lastPick : LastPick
  exiting : Bool
  playbackRate : ℚ
  activeId : Role
  holdEnabled : Bool
  transition : TransitionStyle
  surfA : VideoSurface
  surfB : VideoSurface
deriving DecidableEq

/-- The video element carrying a given role tag. -/
def AppState.surface (s : AppState) : Role → VideoSurface
  | Role.A => s.surfA
  | Role.B => s.surfB

/-- Replaces the video element carrying a given role tag. -/
def AppState.setSurface (s : AppState) : Role → VideoSurface → AppState
  | Role.A, v => { s with surfA := v }
  | Role.B, v => { s with surfB := v }

/-- Embeds `getActiveVideo()`. -/
def AppState.getActiveVideo (s : AppState) : VideoSurface :=
  s.surface s.activeId

/-- Embeds `getIdleVideo()`. -/
def AppState.getIdleVideo (s : AppState) : VideoSurface :=
  s.surface s.activeId.other

/-- Writes through to the currently active video element. -/
def AppState.setActiveVideo (s : AppState) (v : VideoSurface) : AppState :=
  s.setSurface s.activeId v

/-- Writes through to the currently idle video element. -/
def AppState.setIdleVideo (s : AppState) (v : VideoSurface) : AppState :=
  s.setSurface s.activeId.other v

/-- Embeds `swapActive()`. -/
def swapActive (s : AppState) : AppState :=
  { s with activeId := s.activeId.other }

/-- The six random draws made by the retry loop of `pickNextFor`: draw i
is `b[Math.floor(Math.random()*b.length)]`, with the i-th random index
supplied by the oracle `r`. -/
def pickDraws (r : Nat → Nat) (b : List Clip) : List Clip :=
  (List.range 6).map (fun i => b.getD (r i % b.length) dfltClip)

/-- Collision test of the retry loop: `last && last.url === pick.url`
(the loop accepts when `!last || last.url !== pick.url`). -/
def collides (last : Option Clip) (p : Clip) : Bool :=
  match last with
  | none => false
  | some l => l.url = p.url

/-- First accepted draw of the retry loop, or none when all draws
collide with the prior pick. -/
def firstNonColliding (last : Option Clip) : List Clip → Option Clip
  | [] => none
  | p :: rest =>
      if collides last p then firstNonColliding last rest else some p

/-- Embeds `pickNextFor(orient)` of app.js, with the Math.random index
sequence passed as the oracle `r`: empty bucket gives null; singleton
bucket gives its element; otherwise up to 6 draws avoiding the recorded
last pick, recording an accepted draw, and `b[0]` without recording when
all 6 draws collide. -/
def pickNextFor (r : Nat → Nat) (s : AppState) (orient : Orientation) :
    Option Clip × AppState :=
  let b := s.buckets.get orient
  if b.length = 0 then (none, s)
  else if b.length = 1 then (some (b.getD 0 dfltClip), s)
  else
    let last := s.lastPick.get orient
    match firstNonColliding last (pickDraws r b) with
    | some p => (some p, { s with lastPick := s.lastPick.set orient (some p) })
    | none => (some (b.getD 0 dfltClip), s)

/-- Embeds the surface mutations of `loadInto(video,item)`: assign the
clip url, apply the session playback rate, and begin playback (the badge
update is DOM-only and `waitForPlaying` is a pure wait). -/
def loadIntoSurface (sessionRate : ℚ) (v : VideoSurface) (item : Clip) :
    VideoSurface :=
  { v with src := some item.url, playbackRate := sessionRate, paused := false }

/-- Embeds `crossfadeTo(item)` of app.js as the state transform of one
completed transition: reset exiting, load the clip into the idle layer,
set the final opacities of the configured transition style, pause the
formerly active layer, and swap the role tags. -/
def crossfadeTo (s : AppState) (item : Clip) : AppState :=
  let s1 := { s with exiting := false }
  let s2 := s1.setIdleVideo (loadIntoSurface s1.playbackRate s1.getIdleVideo item)
  let s3 :=
    match s2.transition with
    | TransitionStyle.crossfade =>
        let sa := s2.setIdleVideo { s2.getIdleVideo with opacity := 1 }
        sa.setActiveVideo { sa.getActiveVideo with opacity := 0 }
    | TransitionStyle.fade =>
        let sa := s2.setActiveVideo { s2.getActiveVideo with opacity := 0 }
        sa.setIdleVideo { sa.getIdleVideo with opacity := 1 }
    | TransitionStyle.cut =>
        let sa := s2.setActiveVideo { s2.getActiveVideo with opacity := 0 }
        sa.setIdleVideo { sa.getIdleVideo with opacity := 1 }
  let s4 := s3.setActiveVideo { s3.getActiveVideo with paused := true }
  swapActive s4

/-- Embeds the candidate chain of `rotate()`:
`pickNextFor(orient) || pickNextFor(SQUARE) ||
state.items[Math.floor(Math.random()*state.items.length)]`, with the two
pickNextFor oracles and the final uniform index passed explicitly.  The
JS `||` is short-circuiting, so the square pick runs only when the first
pick is null and the items draw only when both are null; indexing an
empty items array yields undefined, embedded as none. -/
def rotateCandidate (r1 r2 : Nat → Nat) (rAll : Nat) (w h : ℚ)
    (s : AppState) : Option Clip × AppState :=
  let orient := screenOrientation w h
  match pickNextFor r1 s orient with
  | (some c, s1) => (some c, s1)
  | (none, s1) =>
      match pickNextFor r2 s1 Orientation.square with
      | (some c, s2) => (some c, s2)
      | (none, s2) => (s2.items.get? (rAll % s2.items.length), s2)

/-- Embeds `rotate()`: compute the candidate; a null candidate returns
without doing anything, otherwise the transition runs.  The boolean
records whether a transition was started. -/
def rotate (r1 r2 : Nat → Nat) (rAll : Nat) (w h : ℚ) (s : AppState) :
    AppState × Bool :=
  match rotateCandidate r1 r2 rAll w h s with
  | (none, s1) => (s1, false)
  | (some c, s1) => (crossfadeTo s1 c, true)

/-- Embeds the `timeupdate` handler installed by `wireVideoEvents(v)` on
the layer with role `which`: ignore events from the non-active layer;
ignore when already exiting or duration is unknown; when the remaining
time is within EXIT_LEAD_S, set exiting, clamp the element playback rate
to `Math.max(MIN_SLOW_RATE, Math.min(state.playbackRate, 0.7))`, and
start the deceleration interval (clearSlow(); setInterval(...)). -/
def onTimeupdate (s : AppState) (which : Role) : AppState :=
  let v := s.surface which
  if which ≠ s.activeId then s
  else if s.exiting then s
  else if v.duration = 0 then s
  else
    let remaining := v.duration - v.currentTime
    if remaining ≤ EXIT_LEAD_S then
      let v1 := { v with
        playbackRate := max MIN_SLOW_RATE (min s.playbackRate (7 / 10)),
        slowTimerOn := true }
      { s.setSurface which v1 with exiting := true }
    else s

/-- Embeds one firing of the `slowTimer` interval callback on the layer
with role `which`, up to the point where it would hold and rotate: when
the remaining time is within PAUSE_EPS, clear the interval, pause the
element, and clamp its position to `Math.max(0, duration - 0.001)`;
otherwise decrement the element playback rate by 0.05 clamped at
MIN_SLOW_RATE.  The boolean records whether the end branch ran, i.e.
whether the callback goes on to hold and invoke `rotate()`. -/
def slowTick (s : AppState) (which : Role) : AppState × Bool :=
  let v := s.surface which
  let rem := v.duration - v.currentTime
  if rem ≤ PAUSE_EPS then
    let v1 := { v with
      slowTimerOn := false,
      paused := true,
      currentTime := max 0 (v.duration - 1 / 1000) }
    (s.setSurface which v1, true)
  else
    (s.setSurface which
      { v with playbackRate := max MIN_SLOW_RATE (v.playbackRate - 1 / 20) },
     false)

/-- Embeds the `ended` handler installed by `wireVideoEvents(v)`: it
mutates nothing and invokes `rotate()` exactly when the event's layer is
the active one and exiting is still false.  The result records whether
rotation is invoked. -/
def onEnded (s : AppState) (which : Role) : Bool :=
  which = s.activeId && !s.exiting

/-- Outcome of the media-element environment for one `probeVideo(url)`
call: the loadedmetadata event with the probed dimensions, the error
event, or neither event ever firing. -/
inductive ProbeOutcome
  | metadata (w h : Nat)
  | mediaError
  | silence
deriving DecidableEq

/-- Metadata record resolved by `probeVideo`. -/
structure ProbeResult where
  width : Nat
  height : Nat
  orientation : Orientation
deriving DecidableEq

/-- Embeds `probeVideo(url)` as a function of the media environment: the
promise resolves with probed dimensions on loadedmetadata and with the
degrade-to-square record on error; no other resolution path exists in
the code (in particular no timeout), so under `silence` the promise
never resolves, embedded as none. -/
def probeVideo : ProbeOutcome → Option ProbeResult
  | ProbeOutcome.metadata w h =>
      some ⟨w, h, inferOrientationFromAspect (w : ℚ) (h : ℚ)⟩
  | ProbeOutcome.mediaError => some ⟨0, 0, Orientation.square⟩
  | ProbeOutcome.silence => none

/-- Events a video element can deliver to `waitForPlaying`: the playing
event, or a timeupdate carrying the element's current position. -/
inductive PlayEvent
  | playing
  | timeupdate (currentTime : ℚ)
deriving DecidableEq

/-- Whether an event makes `waitForPlaying`'s finish() run: playing
always does, timeupdate only when `v.currentTime > 0`. -/
def playEventQualifies : PlayEvent → Bool
  | PlayEvent.playing => true
  | PlayEvent.timeupdate t => t > 0

/-- Resolution time of `waitForPlaying(v, timeout)` given the timed
event sequence the element delivers: the `setTimeout(finish, timeout)`
resolves at `timeoutMs` unless a qualifying event fires earlier (the
done flag makes only the earliest resolution count). -/
def waitForPlayingResolveTime (timeoutMs : Nat)
    (events : List (Nat × PlayEvent)) : Nat :=
  (events.filterMap
      (fun e => if playEventQualifies e.2 then some e.1 else none)).foldl
    min timeoutMs

/-- Default timeout argument of `waitForPlaying` (5000 ms). -/
def WAIT_TIMEOUT_MS : Nat := 5000

/-- Embeds the manifest document: `videos` is none when the field is
missing or not an array (`Array.isArray(manifest.videos) ? ... : []`). -/
structure Manifest where
  videos : Option (List Clip)
deriving DecidableEq

/-- Embeds the bucketing loop of `bootstrap()`:
`state.items = probed; state.buckets = empty; push each item into the
bucket of its orientation`.  Note `state.lastPick` is not reset. -/
def ingest (s : AppState) (probed : List Clip) : AppState :=
  { s with
    items := probed,
    buckets := probed.foldl Buckets.push ⟨[], [], []⟩ }

/-- Embeds the starting-pick expression of `bootstrap()`, the same
short-circuit chain as in `rotate()`. -/
def bootstrapStart (r1 r2 : Nat → Nat) (rAll : Nat) (w h : ℚ)
    (s : AppState) : Option Clip × AppState :=
  let orient := screenOrientation w h
  match pickNextFor r1 s orient with
  | (some c, s1) => (some c, s1)
  | (none, s1) =>
      match pickNextFor r2 s1 Orientation.square with
      | (some c, s2) => (some c, s2)
      | (none, s2) => (s2.items.get? (rAll % s2.items.length), s2)

/-- Embeds the tail of `bootstrap()` after ingestion: unlike `rotate()`,
the start candidate is passed to `loadInto(vActive, start)` with no null
guard; `loadInto` immediately dereferences `item.url`, so a none
candidate raises a TypeError, embedded as the error branch. -/
def bootstrapAfterIngest (r1 r2 : Nat → Nat) (rAll : Nat) (w h : ℚ)
    (s : AppState) : Except String (AppState × Clip) :=
  match bootstrapStart r1 r2 rAll w h s with
  | (none, _) => Except.error "TypeError: item is undefined"
  | (some c, s1) =>
      Except.ok
        (s1.setActiveVideo (loadIntoSurface s1.playbackRate s1.getActiveVideo c),
         c)

/-- Example concrete clips used by witnesses and counterexamples. -/
def clipX : Clip := ⟨"x.mp4", none, 1920, 1080, Orientation.landscape⟩

def clipY : Clip := ⟨"y.mp4", none, 1280, 720, Orientation.landscape⟩

def clipS : Clip := ⟨"s.mp4", none, 600, 600, Orientation.square⟩

/-- A blank idle surface for concrete states. -/
def surfBlank : VideoSurface := ⟨none, 0, 0, 1, true, 0, false⟩

/-- A surface of role A whose deceleration interval is live: 30 s clip at
position 29 s, already slowed to the floor. -/
def surfTimerLive : VideoSurface := ⟨some "x.mp4", 30, 29, 1 / 2, false, 1, true⟩

/-- Concrete state in Approaching-End on layer A with its slowTimer
interval running, as left by the timeupdate handler. -/
def stateLeak : AppState :=
  ⟨[clipX, clipY], ⟨[], [clipX, clipY], []⟩, ⟨none, some clipX, none⟩,
   true, 1, Role.A, true, TransitionStyle.crossfade, surfTimerLive, surfBlank⟩

/-- C6: after any completed transition, exactly one surface is active
(the role tag selects it), the active surface has opacity 1, the other
has opacity 0 and is paused, and the role flip happened exactly once, at
the end of the transition. -/
theorem C6_dual_surface_invariant (s : AppState) (item : Clip) :
    ((crossfadeTo s item).getActiveVideo).opacity = 1 ∧
    ((crossfadeTo s item).getIdleVideo).opacity = 0 ∧
    ((crossfadeTo s item).getIdleVideo).paused = true ∧
    (crossfadeTo s item).activeId = s.activeId.other := by
  rcases s with ⟨items, bk, lp, ex, rate, aid, he, tr, sA, sB⟩
  cases aid <;> cases tr <;>
    exact ⟨rfl, rfl, rfl, rfl⟩

/-- C2: evaluation of the code at the failing input.  From a state in
Approaching-End on layer A with the deceleration interval live, a new
clip load (crossfadeTo, e.g. from a manual next request) resets the
exiting flag and swaps roles but leaves the old layer's slowTimer
interval running: the timer survives a path out of Approaching-End. -/
theorem C2_leaked_timer_eval :
    stateLeak.exiting = true ∧
    (stateLeak.surface Role.A).slowTimerOn = true ∧
    stateLeak.activeId = Role.A ∧
    (crossfadeTo stateLeak clipY).exiting = false ∧
    (crossfadeTo stateLeak clipY).activeId = Role.B ∧
    ((crossfadeTo stateLeak clipY).surface Role.A).slowTimerOn = true := by
  exact ⟨rfl, rfl, rfl, rfl, rfl, rfl⟩

/-- C9: the Approaching-End trigger is idempotent and surface-scoped.
Once exiting is true a progress tick changes nothing (no re-clamp, no
second timer); a progress tick on a non-active layer changes nothing;
an ended event is ignored when the layer is not active or when exiting
is already set. -/
theorem C9_watcher_idempotent :
    (∀ (s : AppState) (w : Role), s.exiting = true → onTimeupdate s w = s) ∧
    (∀ (s : AppState) (w : Role), w ≠ s.activeId → onTimeupdate s w = s) ∧
    (∀ (s : AppState) (w : Role), w ≠ s.activeId → onEnded s w = false) ∧
    (∀ (s : AppState) (w : Role), s.exiting = true → onEnded s w = false) := by
  refine ⟨?_, ?_, ?_, ?_⟩
  · intro s w h
    unfold onTimeupdate
    split_ifs <;> simp_all
  · intro s w h
    unfold onTimeupdate
    rw [if_pos h]
  · intro s w h
    unfold onEnded
    simp [h]
  · intro s w h
    unfold onEnded
    simp [h]

/-- C9 witness at a concrete state: an exiting state ignores a further
progress tick, and layer B events are ignored while A is active. -/
theorem C9_watcher_idempotent_witness :
    onTimeupdate stateLeak Role.A = stateLeak ∧
    onTimeupdate stateLeak Role.B = stateLeak ∧
    onEnded stateLeak Role.B = false ∧
    onEnded stateLeak Role.A = false := by
  refine ⟨?_, ?_, ?_, ?_⟩
  · exact C9_watcher_idempotent.1 stateLeak Role.A rfl
  · exact C9_watcher_idempotent.2.1 stateLeak Role.B (by decide)
  · exact C9_watcher_idempotent.2.2.1 stateLeak Role.B (by decide)
  · exact C9_watcher_idempotent.2.2.2 stateLeak Role.A rfl

/-- Concrete state: layer A active and near the end of a 10 s clip
(remaining 1 s, within the 1.5 s lead), not yet exiting. -/
def stateNearEnd : AppState :=
  ⟨[clipX], ⟨[], [clipX], []⟩, ⟨none, none, none⟩,
   false, 1, Role.A, true, TransitionStyle.crossfade,
   ⟨some "x.mp4", 10, 9, 1, false, 1, false⟩, surfBlank⟩

/-- Concrete state: layer A in Approaching-End with 0.01 s remaining,
within the PAUSE_EPS epsilon. -/
def stateAtEnd : AppState :=
  ⟨[clipX], ⟨[], [clipX], []⟩, ⟨none, none, none⟩,
   true, 1, Role.A, true, TransitionStyle.crossfade,
   ⟨some "x.mp4", 30, 2999 / 100, 1 / 2, false, 1, true⟩, surfBlank⟩

/-- C1: the Approaching-End ramp.  On the first progress tick with
remaining time within the 1.5 s lead while exiting is false, the handler
sets exiting and clamps the active layer's rate to
max(0.5, min(session rate, 0.7)) — never below the 0.5 floor — and
starts the 120 ms deceleration interval.  Each interval firing with
remaining time above the 0.05 s epsilon decrements the rate by exactly
0.05 clamped at the floor (so the rate never increases and stays ≥ 0.5)
and keeps the interval alive; the first firing with remaining time
within the epsilon cancels the interval, pauses the layer, and clamps
its position to duration − 0.001. -/
theorem C1_watcher_ramp :
    SLOW_INTERVAL_MS = 120 ∧
    (∀ (s : AppState) (w : Role),
      w = s.activeId → s.exiting = false → (s.surface w).duration ≠ 0 →
      (s.surface w).duration - (s.surface w).currentTime ≤ EXIT_LEAD_S →
      (onTimeupdate s w).exiting = true ∧
      ((onTimeupdate s w).surface w).playbackRate
        = max MIN_SLOW_RATE (min s.playbackRate (7 / 10)) ∧
      MIN_SLOW_RATE ≤ ((onTimeupdate s w).surface w).playbackRate ∧
      ((onTimeupdate s w).surface w).slowTimerOn = true) ∧
    (∀ (s : AppState) (w : Role),
      PAUSE_EPS < (s.surface w).duration - (s.surface w).currentTime →
      (slowTick s w).2 = false ∧
      ((slowTick s w).1.surface w).playbackRate
        = max MIN_SLOW_RATE ((s.surface w).playbackRate - 1 / 20) ∧
      (MIN_SLOW_RATE ≤ (s.surface w).playbackRate →
        ((slowTick s w).1.surface w).playbackRate ≤ (s.surface w).playbackRate) ∧
      MIN_SLOW_RATE ≤ ((slowTick s w).1.surface w).playbackRate ∧
      ((slowTick s w).1.surface w).slowTimerOn = (s.surface w).slowTimerOn) ∧
    (∀ (s : AppState) (w : Role),
      (s.surface w).duration - (s.surface w).currentTime ≤ PAUSE_EPS →
      1 / 1000 ≤ (s.surface w).duration →
      (slowTick s w).2 = true ∧
      ((slowTick s w).1.surface w).slowTimerOn = false ∧
      ((slowTick s w).1.surface w).paused = true ∧
      ((slowTick s w).1.surface w).currentTime
        = (s.surface w).duration - 1 / 1000) := by
  refine ⟨rfl, ?_, ?_, ?_⟩
  · intro s w h1 h2 h3 h4
    have hact : ¬ (w ≠ s.activeId) := fun hc => hc h1
    have hex : ¬ (s.exiting = true) := by simp [h2]
    cases w <;>
    · simp only [onTimeupdate, AppState.surface, AppState.setSurface] at h3 h4 ⊢
      rw [if_neg hact, if_neg hex, if_neg h3, if_pos h4]
      exact ⟨rfl, rfl, le_max_left _ _, rfl⟩
  · intro s w h
    have hng : ¬ ((s.surface w).duration - (s.surface w).currentTime ≤ PAUSE_EPS) :=
      not_le.mpr h
    cases w <;>
    · simp only [slowTick, AppState.surface, AppState.setSurface] at hng h ⊢
      rw [if_neg hng]
      exact ⟨rfl, rfl, fun hr => max_le hr (by linarith), le_max_left _ _, rfl⟩
  · intro s w h1 h2
    cases w <;>
    · simp only [slowTick, AppState.surface, AppState.setSurface] at h1 h2 ⊢
      rw [if_pos h1]
      refine ⟨rfl, rfl, rfl, ?_⟩
      exact max_eq_right (by linarith)

/-- C1 witness: the ramp entry fires on the concrete near-end state, one
mid-ramp interval firing decrements without rotating, and one end-epsilon
firing pauses. -/
theorem C1_watcher_ramp_witness :
    (onTimeupdate stateNearEnd Role.A).exiting = true ∧
    ((onTimeupdate stateNearEnd Role.A).surface Role.A).playbackRate
      = max MIN_SLOW_RATE (min stateNearEnd.playbackRate (7 / 10)) ∧
    (slowTick stateLeak Role.A).2 = false ∧
    (slowTick stateAtEnd Role.A).2 = true ∧
    ((slowTick stateAtEnd Role.A).1.surface Role.A).paused = true ∧
    ((slowTick stateAtEnd Role.A).1.surface Role.A).currentTime
      = (stateAtEnd.surface Role.A).duration - 1 / 1000 := by
  obtain ⟨-, hEntry, hDec, hEnd⟩ := C1_watcher_ramp
  have he := hEntry stateNearEnd Role.A rfl rfl
    (by norm_num [stateNearEnd, AppState.surface])
    (by norm_num [stateNearEnd, AppState.surface, EXIT_LEAD_S])
  have hd := hDec stateLeak Role.A
    (by norm_num [stateLeak, surfTimerLive, AppState.surface, PAUSE_EPS])
  have hz := hEnd stateAtEnd Role.A
    (by norm_num [stateAtEnd, AppState.surface, PAUSE_EPS])
    (by norm_num [stateAtEnd, AppState.surface])
  exact ⟨he.1, he.2.1, hd.1, hz.1, hz.2.2.1, hz.2.2.2⟩

/-! Helper lemmas about pickNextFor. -/

lemma getD_mem_clip (d : Clip) :
    ∀ (b : List Clip) (n : Nat), n < b.length → b.getD n d ∈ b := by
  intro b
  induction b with
  | nil => intro n h; simp at h
  | cons a t ih =>
      intro n h
      cases n with
      | zero => simp
      | succ m =>
          rw [List.getD_cons_succ]
          exact List.mem_cons_of_mem _ (ih m (Nat.succ_lt_succ_iff.mp h))

lemma pickDraws_mem {r : Nat → Nat} {b : List Clip} (hb : 0 < b.length)
    {p : Clip} (hp : p ∈ pickDraws r b) : p ∈ b := by
  simp only [pickDraws, List.mem_map, List.mem_range] at hp
  obtain ⟨i, -, rfl⟩ := hp
  exact getD_mem_clip _ b _ (Nat.mod_lt _ hb)

lemma firstNonColliding_mem {last : Option Clip} :
    ∀ {l : List Clip} {p : Clip}, firstNonColliding last l = some p →
      p ∈ l ∧ collides last p = false := by
  intro l
  induction l with
  | nil => intro p hp; simp [firstNonColliding] at hp
  | cons a t ih =>
      intro p hp
      rw [firstNonColliding] at hp
      by_cases hc : collides last a
      · rw [if_pos hc] at hp
        obtain ⟨hm, hcol⟩ := ih hp
        exact ⟨List.mem_cons_of_mem _ hm, hcol⟩
      · rw [if_neg hc] at hp
        cases hp
        exact ⟨List.mem_cons_self _ _, Bool.not_eq_true _ ▸ by simpa using hc⟩

lemma pickNextFor_empty (r : Nat → Nat) (s : AppState) (o : Orientation)
    (h : s.buckets.get o = []) : pickNextFor r s o = (none, s) := by
  simp [pickNextFor, h]

lemma pickNextFor_some_mem (r : Nat → Nat) (s : AppState) (o : Orientation)
    (hb : s.buckets.get o ≠ []) :
    ∃ c, (pickNextFor r s o).1 = some c ∧ c ∈ s.buckets.get o := by
  have h0 : ¬ ((s.buckets.get o).length = 0) := by
    simpa [List.length_eq_zero] using hb
  simp only [pickNextFor]
  rw [if_neg h0]
  by_cases h1 : (s.buckets.get o).length = 1
  · rw [if_pos h1]
    exact ⟨_, rfl, getD_mem_clip _ _ _ (by omega)⟩
  · rw [if_neg h1]
    rcases hm : firstNonColliding (s.lastPick.get o)
        (pickDraws r (s.buckets.get o)) with - | p
    · simp only [hm]
      exact ⟨_, rfl, getD_mem_clip _ _ _ (by omega)⟩
    · simp only [hm]
      exact ⟨p, rfl, pickDraws_mem (by omega) (firstNonColliding_mem hm).1⟩

lemma pickNextFor_mem (r : Nat → Nat) (s : AppState) (o : Orientation)
    (c : Clip) (hc : (pickNextFor r s o).1 = some c) :
    c ∈ s.buckets.get o := by
  by_cases hb : s.buckets.get o = []
  · rw [pickNextFor_empty r s o hb] at hc
    exact absurd hc (by simp)
  · obtain ⟨c1, hc1, hmem⟩ := pickNextFor_some_mem r s o hb
    rw [hc] at hc1
    cases hc1
    exact hmem

/-- Concrete state whose landscape bucket is the pair clipX, clipY with
clipY recorded as the last landscape pick. -/
def stateXY : AppState :=
  ⟨[clipX, clipY], ⟨[], [clipX, clipY], []⟩, ⟨none, some clipY, none⟩,
   false, 1, Role.A, true, TransitionStyle.crossfade, surfBlank, surfBlank⟩

/-- C3 counterexample: with bucket of size 2 and prior pick clipY, give
an oracle that draws clipY on all 6 attempts.  Every attempt collides
with the prior pick, yet pickNextFor returns clipX — the first element
of the bucket — not the colliding clip clipY that the claim says it
accepts. -/
theorem C3_counterexample :
    (∀ p ∈ pickDraws (fun _ => 1) (stateXY.buckets.get Orientation.landscape),
        collides (stateXY.lastPick.get Orientation.landscape) p = true) ∧
    (pickNextFor (fun _ => 1) stateXY Orientation.landscape).1 = some clipX ∧
    stateXY.lastPick.get Orientation.landscape = some clipY ∧
    clipX.url ≠ clipY.url := by
  refine ⟨by decide, by decide, by decide, by decide⟩

/-- C3 amended: pickNextFor returns none exactly when the bucket is
empty; a singleton bucket returns its element with no state change; for
a bucket of size ≥ 2 it returns the first of the up-to-6 uniform draws
that does not collide with the recorded prior pick, and records it; when
all 6 draws collide it returns the first element of the bucket (which
need not be the colliding clip) without updating the last-pick memory.
Every returned clip is a member of the bucket. -/
theorem C3_pickNext_amended :
    (∀ (r : Nat → Nat) (s : AppState) (o : Orientation),
      (pickNextFor r s o).1 = none ↔ s.buckets.get o = []) ∧
    (∀ (r : Nat → Nat) (s : AppState) (o : Orientation) (c : Clip),
      s.buckets.get o = [c] → pickNextFor r s o = (some c, s)) ∧
    (∀ (r : Nat → Nat) (s : AppState) (o : Orientation) (p : Clip),
      2 ≤ (s.buckets.get o).length →
      firstNonColliding (s.lastPick.get o) (pickDraws r (s.buckets.get o))
        = some p →
      pickNextFor r s o
        = (some p, { s with lastPick := s.lastPick.set o (some p) }) ∧
      collides (s.lastPick.get o) p = false ∧ p ∈ s.buckets.get o) ∧
    (∀ (r : Nat → Nat) (s : AppState) (o : Orientation),
      2 ≤ (s.buckets.get o).length →
      firstNonColliding (s.lastPick.get o) (pickDraws r (s.buckets.get o))
        = none →
      pickNextFor r s o = (some ((s.buckets.get o).getD 0 dfltClip), s)) ∧
    (∀ (r : Nat → Nat) (s : AppState) (o : Orientation) (c : Clip),
      (pickNextFor r s o).1 = some c → c ∈ s.buckets.get o) := by
  refine ⟨?_, ?_, ?_, ?_, pickNextFor_mem⟩
  · intro r s o
    constructor
    · intro hn
      by_contra hb
      obtain ⟨c, hc, -⟩ := pickNextFor_some_mem r s o hb
      rw [hn] at hc
      exact Option.noConfusion hc
    · intro hb
      rw [pickNextFor_empty r s o hb]
  · intro r s o c hb
    simp [pickNextFor, hb]
  · intro r s o p hlen hfc
    refine ⟨?_, (firstNonColliding_mem hfc).2,
      pickDraws_mem (by omega) (firstNonColliding_mem hfc).1⟩
    simp only [pickNextFor]
    rw [if_neg (by omega), if_neg (by omega), hfc]
  · intro r s o hlen hfc
    simp only [pickNextFor]
    rw [if_neg (by omega), if_neg (by omega), hfc]

/-- C3 amended witness: concrete instantiations — empty bucket gives
none; the portrait singleton returns its element; an oracle drawing
index 0 first returns clipX and records it; the all-colliding oracle
returns the bucket head. -/
theorem C3_pickNext_amended_witness :
    ((pickNextFor (fun _ => 0) stateXY Orientation.portrait).1 = none ↔
      stateXY.buckets.get Orientation.portrait = []) ∧
    pickNextFor (fun _ => 0) stateNearEnd Orientation.landscape
      = (some clipX, stateNearEnd) ∧
    pickNextFor (fun _ => 1) stateXY Orientation.landscape
      = (some ((stateXY.buckets.get Orientation.landscape).getD 0 dfltClip),
         stateXY) ∧
    pickNextFor (fun i => i) stateXY Orientation.landscape
      = (some clipX,
         { stateXY with
            lastPick := stateXY.lastPick.set Orientation.landscape
              (some clipX) }) := by
  obtain ⟨h1, h2, h3, h4, -⟩ := C3_pickNext_amended
  refine ⟨h1 _ _ _, h2 _ _ _ clipX (by decide), ?_, ?_⟩
  · exact h4 (fun _ => 1) stateXY Orientation.landscape (by decide) (by decide)
  · exact (h3 (fun i => i) stateXY Orientation.landscape clipX (by decide)
      (by decide)).1

/-- Concrete state with square bucket only. -/
def stateOnlySquare : AppState :=
  ⟨[clipS], ⟨[], [], [clipS]⟩, ⟨none, none, none⟩,
   false, 1, Role.A, true, TransitionStyle.crossfade, surfBlank, surfBlank⟩

/-- Concrete state with a non-empty library but all buckets empty. -/
def stateNoBuckets : AppState :=
  ⟨[clipX], ⟨[], [], []⟩, ⟨none, none, none⟩,
   false, 1, Role.A, true, TransitionStyle.crossfade, surfBlank, surfBlank⟩

/-- Concrete state with an entirely empty library. -/
def stateEmpty : AppState :=
  ⟨[], ⟨[], [], []⟩, ⟨none, none, none⟩,
   false, 1, Role.A, true, TransitionStyle.crossfade, surfBlank, surfBlank⟩

/-- C4: the rotate fallback chain.  A non-empty bucket for the current
screen orientation yields a candidate from that bucket and a transition
starts; with that bucket empty but square non-empty the candidate comes
from square; with both empty but a non-empty library the candidate is
the uniformly indexed library item (so some clip is always selected and
a transition starts); only with the library entirely empty does rotate
return the state unchanged with no transition and no error. -/
theorem C4_rotate_fallback :
    (∀ (r1 r2 : Nat → Nat) (rAll : Nat) (w h : ℚ) (s : AppState),
      s.buckets.get (screenOrientation w h) ≠ [] →
      ∃ c, (rotateCandidate r1 r2 rAll w h s).1 = some c ∧
        c ∈ s.buckets.get (screenOrientation w h) ∧
        (rotate r1 r2 rAll w h s).2 = true) ∧
    (∀ (r1 r2 : Nat → Nat) (rAll : Nat) (w h : ℚ) (s : AppState),
      s.buckets.get (screenOrientation w h) = [] →
      s.buckets.get Orientation.square ≠ [] →
      ∃ c, (rotateCandidate r1 r2 rAll w h s).1 = some c ∧
        c ∈ s.buckets.get Orientation.square ∧
        (rotate r1 r2 rAll w h s).2 = true) ∧
    (∀ (r1 r2 : Nat → Nat) (rAll : Nat) (w h : ℚ) (s : AppState),
      s.buckets.get (screenOrientation w h) = [] →
      s.buckets.get Orientation.square = [] →
      s.items ≠ [] →
      (rotateCandidate r1 r2 rAll w h s).1
        = s.items.get? (rAll % s.items.length) ∧
      ∃ c, (rotateCandidate r1 r2 rAll w h s).1 = some c ∧
        c ∈ s.items ∧ (rotate r1 r2 rAll w h s).2 = true) ∧
    (∀ (r1 r2 : Nat → Nat) (rAll : Nat) (w h : ℚ) (s : AppState),
      s.buckets.get (screenOrientation w h) = [] →
      s.buckets.get Orientation.square = [] →
      s.items = [] →
      rotate r1 r2 rAll w h s = (s, false)) := by
  refine ⟨?_, ?_, ?_, ?_⟩
  · intro r1 r2 rAll w h s hne
    obtain ⟨c, hc, hmem⟩ := pickNextFor_some_mem r1 s _ hne
    rcases hp : pickNextFor r1 s (screenOrientation w h) with ⟨c1, s1⟩
    rw [hp] at hc
    simp only at hc
    subst hc
    have hrc : rotateCandidate r1 r2 rAll w h s = (some c, s1) := by
      simp [rotateCandidate, hp]
    exact ⟨c, by rw [hrc], hmem, by simp [rotate, hrc]⟩
  · intro r1 r2 rAll w h s hempty hsq
    have hp1 : pickNextFor r1 s (screenOrientation w h) = (none, s) :=
      pickNextFor_empty _ _ _ hempty
    obtain ⟨c, hc, hmem⟩ := pickNextFor_some_mem r2 s Orientation.square hsq
    rcases hp2 : pickNextFor r2 s Orientation.square with ⟨c2, s2⟩
    rw [hp2] at hc
    simp only at hc
    subst hc
    have hrc : rotateCandidate r1 r2 rAll w h s = (some c, s2) := by
      simp [rotateCandidate, hp1, hp2]
    exact ⟨c, by rw [hrc], hmem, by simp [rotate, hrc]⟩
  · intro r1 r2 rAll w h s hempty hsq hlib
    have hp1 : pickNextFor r1 s (screenOrientation w h) = (none, s) :=
      pickNextFor_empty _ _ _ hempty
    have hp2 : pickNextFor r2 s Orientation.square = (none, s) :=
      pickNextFor_empty _ _ _ hsq
    have hrc : rotateCandidate r1 r2 rAll w h s
        = (s.items.get? (rAll % s.items.length), s) := by
      simp [rotateCandidate, hp1, hp2]
    have hlt : rAll % s.items.length < s.items.length :=
      Nat.mod_lt _ (List.length_pos.mpr hlib)
    rcases hg : s.items.get? (rAll % s.items.length) with - | c
    · rw [List.get?_eq_none] at hg
      omega
    · refine ⟨by rw [hrc, hg], c, by rw [hrc, hg], List.get?_mem hg, ?_⟩
      have hg2 : s.items[rAll % s.items.length]? = some c := by
        simpa [List.get?_eq_getElem?] using hg
      simp [rotate, hrc, hg2]
  · intro r1 r2 rAll w h s hempty hsq hlib
    have hp1 : pickNextFor r1 s (screenOrientation w h) = (none, s) :=
      pickNextFor_empty _ _ _ hempty
    have hp2 : pickNextFor r2 s Orientation.square = (none, s) :=
      pickNextFor_empty _ _ _ hsq
    simp [rotate, rotateCandidate, hp1, hp2, hlib]

/-- C4 witness: the four fallback cases at concrete states and a
concrete 16:9 landscape viewport. -/
theorem C4_rotate_fallback_witness :
    (∃ c, (rotateCandidate (fun _ => 0) (fun _ => 0) 0 16 9 stateNearEnd).1
        = some c ∧
      c ∈ stateNearEnd.buckets.get (screenOrientation 16 9) ∧
      (rotate (fun _ => 0) (fun _ => 0) 0 16 9 stateNearEnd).2 = true) ∧
    (∃ c, (rotateCandidate (fun _ => 0) (fun _ => 0) 0 16 9 stateOnlySquare).1
        = some c ∧
      c ∈ stateOnlySquare.buckets.get Orientation.square ∧
      (rotate (fun _ => 0) (fun _ => 0) 0 16 9 stateOnlySquare).2 = true) ∧
    (∃ c, (rotateCandidate (fun _ => 0) (fun _ => 0) 0 16 9 stateNoBuckets).1
        = some c ∧
      c ∈ stateNoBuckets.items ∧
      (rotate (fun _ => 0) (fun _ => 0) 0 16 9 stateNoBuckets).2 = true) ∧
    rotate (fun _ => 0) (fun _ => 0) 0 16 9 stateEmpty = (stateEmpty, false) := by
  obtain ⟨p1, p2, p3, p4⟩ := C4_rotate_fallback
  have hso : screenOrientation (16 : ℚ) 9 = Orientation.landscape := by
    norm_num [screenOrientation]
  refine ⟨?_, ?_, ?_, ?_⟩
  · exact p1 _ _ 0 16 9 stateNearEnd (by rw [hso]; decide)
  · exact p2 _ _ 0 16 9 stateOnlySquare (by rw [hso]; decide) (by decide)
  · exact (p3 _ _ 0 16 9 stateNoBuckets (by rw [hso]; decide) (by decide)
      (by decide)).2
  · exact p4 _ _ 0 16 9 stateEmpty (by rw [hso]; decide) (by decide) (by decide)

lemma foldl_min_le (l : List Nat) (a : Nat) : l.foldl min a ≤ a := by
  induction l generalizing a with
  | nil => simp
  | cons x t ih => exact le_trans (ih (min a x)) (min_le_left _ _)

/-- C5 counterexample: probeVideo has no timeout path — its promise
resolves only on the loadedmetadata or error events, so in an
environment where neither fires it never resolves, contradicting the
claim that probe resolves for every input via a bounded ~8 s timeout. -/
theorem C5_counterexample :
    probeVideo ProbeOutcome.silence = none ∧
    ¬ ∀ o : ProbeOutcome, (probeVideo o).isSome = true := by
  refine ⟨rfl, fun hall => ?_⟩
  have := hall ProbeOutcome.silence
  simp [probeVideo] at this

/-- C5 amended: waitForPlaying always resolves within its default
5000 ms timeout whatever events the element delivers; probeVideo
resolves with the probed dimensions on loadedmetadata and with the
degrade-safe width 0, height 0, square record on decode error, but has
no timeout of its own and does not resolve when neither event fires. -/
theorem C5_bounded_wait_amended :
    (∀ events : List (Nat × PlayEvent),
      waitForPlayingResolveTime WAIT_TIMEOUT_MS events ≤ WAIT_TIMEOUT_MS) ∧
    WAIT_TIMEOUT_MS = 5000 ∧
    (∀ w h : Nat,
      probeVideo (ProbeOutcome.metadata w h)
        = some ⟨w, h, inferOrientationFromAspect (w : ℚ) (h : ℚ)⟩) ∧
    probeVideo ProbeOutcome.mediaError = some ⟨0, 0, Orientation.square⟩ ∧
    probeVideo ProbeOutcome.silence = none := by
  exact ⟨fun events => foldl_min_le _ _, rfl, fun w h => rfl, rfl, rfl⟩

/-- C7: portrait/landscape symmetry of the classifier under argument
swap, for positive dimensions outside the square tolerance band. -/
theorem C7_portrait_landscape_symmetry (w h : ℚ) (hw : 0 < w) (hh : 0 < h)
    (hns : ¬ |w / h - 1| ≤ ASPECT_TOL) :
    (inferOrientationFromAspect w h = Orientation.portrait ↔
      inferOrientationFromAspect h w = Orientation.landscape) := by
  have hw0 : w ≠ 0 := ne_of_gt hw
  have hh0 : h ≠ 0 := ne_of_gt hh
  have hAT : ASPECT_TOL = 8 / 100 := rfl
  have htol : ASPECT_TOL < |w / h - 1| := not_le.mp hns
  constructor
  · intro hp
    have hr : ¬ (w / h > 1) := by
      intro hgt
      simp only [inferOrientationFromAspect] at hp
      rw [if_neg (by simp [hw0, hh0]), if_neg hns, if_pos hgt] at hp
      exact Orientation.noConfusion hp
    have hle : w / h ≤ 1 := not_lt.mp hr
    have habs : |w / h - 1| = 1 - w / h := by
      rw [abs_of_nonpos (by linarith)]; ring
    have hlt : w / h < 23 / 25 := by
      rw [habs, hAT] at htol; linarith
    have hwh : w < 23 / 25 * h := (div_lt_iff₀ hh).mp hlt
    have hhw_gt : (1 : ℚ) < h / w := by
      rw [lt_div_iff₀ hw]; linarith
    have h27 : (27 / 25 : ℚ) < h / w := by
      rw [lt_div_iff₀ hw]; linarith
    have hhw_tol : ASPECT_TOL < |h / w - 1| := by
      rw [abs_of_nonneg (by linarith), hAT]; linarith
    simp only [inferOrientationFromAspect]
    rw [if_neg (by simp [hw0, hh0]), if_neg (not_le.mpr hhw_tol),
      if_pos hhw_gt]
  · intro hl
    have hcases : ¬ (|h / w - 1| ≤ ASPECT_TOL) ∧ h / w > 1 := by
      by_cases hq : |h / w - 1| ≤ ASPECT_TOL
      · simp only [inferOrientationFromAspect] at hl
        rw [if_neg (by simp [hw0, hh0]), if_pos hq] at hl
        exact Orientation.noConfusion hl
      · by_cases hg : h / w > 1
        · exact ⟨hq, hg⟩
        · simp only [inferOrientationFromAspect] at hl
          rw [if_neg (by simp [hw0, hh0]), if_neg hq, if_neg hg] at hl
          exact Orientation.noConfusion hl
    obtain ⟨hq, hg⟩ := hcases
    have htol2 : ASPECT_TOL < |h / w - 1| := not_le.mp hq
    have h27 : (27 / 25 : ℚ) < h / w := by
      rw [abs_of_nonneg (by linarith), hAT] at htol2; linarith
    have hwlt : 27 / 25 * w < h := by
      rw [lt_div_iff₀ hw] at h27; linarith
    have hwh_lt1 : w / h < 1 := by
      rw [div_lt_one hh]; linarith
    simp only [inferOrientationFromAspect]
    rw [if_neg (by simp [hw0, hh0]), if_neg hns,
      if_neg (not_lt.mpr hwh_lt1.le)]

/-- C7 witness at the concrete 9:16 pair, well outside the tolerance
band: classify(9,16) is portrait exactly when classify(16,9) is
landscape. -/
theorem C7_portrait_landscape_symmetry_witness :
    (0 : ℚ) < 9 ∧ (0 : ℚ) < 16 ∧ ¬ |(9 : ℚ) / 16 - 1| ≤ ASPECT_TOL ∧
    (inferOrientationFromAspect 9 16 = Orientation.portrait ↔
      inferOrientationFromAspect 16 9 = Orientation.landscape) := by
  have hns : ¬ |(9 : ℚ) / 16 - 1| ≤ ASPECT_TOL := by
    simp only [ASPECT_TOL]
    rw [abs_of_nonpos (by norm_num)]
    norm_num
  exact ⟨by norm_num, by norm_num, hns,
    C7_portrait_landscape_symmetry 9 16 (by norm_num) (by norm_num) hns⟩

/-- C8 counterexample: at a square viewport the screen-orientation
function returns landscape while the classifier returns square, so the
bucket requested by rotate and bootstrap is not the classifier's
result. -/
theorem C8_counterexample :
    screenOrientation 100 100 = Orientation.landscape ∧
    inferOrientationFromAspect 100 100 = Orientation.square ∧
    screenOrientation 100 100 ≠ inferOrientationFromAspect 100 100 := by
  have h1 : screenOrientation (100 : ℚ) 100 = Orientation.landscape := by
    norm_num [screenOrientation]
  have h2 : inferOrientationFromAspect (100 : ℚ) 100 = Orientation.square := by
    norm_num [inferOrientationFromAspect, ASPECT_TOL]
  exact ⟨h1, h2, by rw [h1, h2]; exact Orientation.noConfusion⟩

/-- C8 amended: the screen orientation used by rotate and bootstrap is
the simpler comparison "portrait when height exceeds width, else
landscape"; it never yields square, and it agrees with the classifier
applied to the viewport exactly where the classifier is not square. -/
theorem C8_screen_orientation_amended :
    (∀ w h : ℚ, screenOrientation w h ≠ Orientation.square) ∧
    (∀ w h : ℚ, 0 < w → 0 < h →
      inferOrientationFromAspect w h ≠ Orientation.square →
      screenOrientation w h = inferOrientationFromAspect w h) := by
  constructor
  · intro w h
    unfold screenOrientation
    split_ifs <;> exact Orientation.noConfusion
  · intro w h hw hh hns
    have hw0 : w ≠ 0 := ne_of_gt hw
    have hh0 : h ≠ 0 := ne_of_gt hh
    have hq : ¬ (|w / h - 1| ≤ ASPECT_TOL) := by
      intro hq
      apply hns
      simp only [inferOrientationFromAspect]
      rw [if_neg (by simp [hw0, hh0]), if_pos hq]
    by_cases hg : (1 : ℚ) < w / h
    · have hwh : h < w := (one_lt_div hh).mp hg
      have hscreen : screenOrientation w h = Orientation.landscape := by
        unfold screenOrientation
        rw [if_neg (not_lt.mpr hwh.le)]
      have hinf : inferOrientationFromAspect w h = Orientation.landscape := by
        simp only [inferOrientationFromAspect]
        rw [if_neg (by simp [hw0, hh0]), if_neg hq, if_pos hg]
      rw [hscreen, hinf]
    · have hlt : w / h < 1 := by
        rcases lt_or_eq_of_le (not_lt.mp hg) with hlt | heq
        · exact hlt
        · exfalso
          apply hq
          rw [heq]
          simp [ASPECT_TOL]
          norm_num
      have hwh : w < h := (div_lt_one hh).mp hlt
      have hscreen : screenOrientation w h = Orientation.portrait := by
        unfold screenOrientation
        rw [if_pos hwh]
      have hinf : inferOrientationFromAspect w h = Orientation.portrait := by
        simp only [inferOrientationFromAspect]
        rw [if_neg (by simp [hw0, hh0]), if_neg hq, if_neg hg]
      rw [hscreen, hinf]

/-- C8 amended witness at the concrete 16:9 viewport: the screen
orientation is not square and matches the classifier there. -/
theorem C8_screen_orientation_amended_witness :
    screenOrientation (16 : ℚ) 9 ≠ Orientation.square ∧
    screenOrientation (16 : ℚ) 9 = inferOrientationFromAspect 16 9 := by
  obtain ⟨p1, p2⟩ := C8_screen_orientation_amended
  have hne : inferOrientationFromAspect (16 : ℚ) 9 = Orientation.landscape := by
    simp only [inferOrientationFromAspect, ASPECT_TOL]
    rw [if_neg (by norm_num),
      if_neg (by rw [abs_of_nonneg (by norm_num)]; norm_num),
      if_pos (by norm_num)]
  exact ⟨p1 16 9, p2 16 9 (by norm_num) (by norm_num)
    (by rw [hne]; exact Orientation.noConfusion)⟩

/-- The `videos` list the bootstrap reads from the manifest:
`Array.isArray(manifest.videos) ? manifest.videos : []`. -/
def manifestVideos (m : Manifest) : List Clip := m.videos.getD []

/-- C10: with a well-formed manifest yielding an empty library, the
ingested state has empty buckets and items, the bootstrap start
candidate is none, and — unlike rotate, which guards the none candidate
and returns unchanged without error — bootstrap passes it unguarded to
loadInto, which dereferences it and raises. -/
theorem C10_bootstrap_unguarded (r1 r2 : Nat → Nat) (rAll : Nat) (w h : ℚ)
    (s : AppState) (m : Manifest) (hm : manifestVideos m = []) :
    (bootstrapStart r1 r2 rAll w h (ingest s (manifestVideos m))).1 = none ∧
    bootstrapAfterIngest r1 r2 rAll w h (ingest s (manifestVideos m))
      = Except.error "TypeError: item is undefined" ∧
    rotate r1 r2 rAll w h (ingest s (manifestVideos m))
      = (ingest s (manifestVideos m), false) := by
  rw [hm]
  have hbk : ∀ o, (ingest s []).buckets.get o = [] := by
    intro o; cases o <;> rfl
  have hit : (ingest s []).items = [] := rfl
  have hp1 : pickNextFor r1 (ingest s []) (screenOrientation w h)
      = (none, ingest s []) := pickNextFor_empty _ _ _ (hbk _)
  have hp2 : pickNextFor r2 (ingest s []) Orientation.square
      = (none, ingest s []) := pickNextFor_empty _ _ _ (hbk _)
  have hbs : bootstrapStart r1 r2 rAll w h (ingest s [])
      = (none, ingest s []) := by
    simp [bootstrapStart, hp1, hp2, hit]
  refine ⟨by rw [hbs], ?_, ?_⟩
  · simp [bootstrapAfterIngest, hbs]
  · simp [rotate, rotateCandidate, hp1, hp2, hit]

/-- C10 witness: the manifest with a missing videos field at the
concrete empty state. -/
theorem C10_bootstrap_unguarded_witness :
    (bootstrapStart (fun _ => 0) (fun _ => 0) 0 16 9
      (ingest stateEmpty (manifestVideos ⟨none⟩))).1 = none ∧
    bootstrapAfterIngest (fun _ => 0) (fun _ => 0) 0 16 9
      (ingest stateEmpty (manifestVideos ⟨none⟩))
      = Except.error "TypeError: item is undefined" ∧
    rotate (fun _ => 0) (fun _ => 0) 0 16 9
      (ingest stateEmpty (manifestVideos ⟨none⟩))
      = (ingest stateEmpty (manifestVideos ⟨none⟩), false) :=
  C10_bootstrap_unguarded (fun _ => 0) (fun _ => 0) 0 16 9 stateEmpty
    ⟨none⟩ rfl

end Screensaver
